import Mathlib

/-!
Verification of the omnivision browser client (src/public/app.js) against its
natural-language specification.

The code is shallowly embedded: the response-parsing pipeline of
`processApiResponse` becomes pure functions on `String`, the alert log
(`addAlert` plus the container's `querySelectorAll('div')` trimming) becomes a
function on lists of rendered alert elements, and the analysis loop
(`startAnalysis` / `stopAnalysis` / `analyzeFrame` and the UI event listeners)
becomes a step function on an explicit application state, parameterised by the
outcome of the network request (which is the external collaborator).

JavaScript string primitives are modelled on `List Char`:
`trim` / `toLowerCase` / `includes` / `startsWith` / `substring` / `split` are
translated for the ASCII character range the application works with.
-/

namespace Omnivision

/-! ## JavaScript string primitives -/

/-- JS whitespace as relevant here (the `\s` class over ASCII:
space, tab, newline, carriage return, vertical tab, form feed). -/
def isJsSpace (c : Char) : Bool :=
  c == ' ' || c == '\t' || c == '\n' || c == '\r' || c == Char.ofNat 11 || c == Char.ofNat 12

/-- JS `String.prototype.trim` (over the ASCII whitespace range). -/
def jsTrim (s : String) : String :=
  String.mk (((s.data.dropWhile isJsSpace).reverse.dropWhile isJsSpace).reverse)

/-- JS `String.prototype.substring(n)` (code points; the app only handles ASCII). -/
def strDrop (s : String) (n : Nat) : String :=
  String.mk (s.data.drop n)

/-- JS `String.prototype.substring(0, n)`. -/
def strTake (s : String) (n : Nat) : String :=
  String.mk (s.data.take n)

/-- JS `String.prototype.toLowerCase` (ASCII range). -/
def strToLower (s : String) : String :=
  String.mk (s.data.map Char.toLower)

/-- JS `String.prototype.startsWith(p)` (case-sensitive). -/
def strStartsWith (s p : String) : Bool :=
  p.data.isPrefixOf s.data

/-- Auxiliary scan for substring containment. -/
def strIncludesAux (n : List Char) : List Char → Bool
  | [] => n.isEmpty
  | c :: rest => n.isPrefixOf (c :: rest) || strIncludesAux n rest

/-- JS `String.prototype.includes(n)`: `n` occurs as a contiguous substring. -/
def strIncludes (h n : String) : Bool :=
  strIncludesAux n.data h.data

/-- JS `\w` character class: `[A-Za-z0-9_]`. -/
def isWordChar (c : Char) : Bool :=
  c.isAlpha || c.isDigit || c == '_'

/-! ## ResponseParser (app.js `processApiResponse`, lines 277-341)

The parser proper is a pure function from the trimmed model response text to a
description and an optional alert signal (`none` = UNKNOWN). -/

inductive AlertSignal where
  | yes
  | no
deriving DecidableEq, Repr

/-- JS `String.prototype.split('\n')`, accumulating the current segment. -/
def splitNewlineAux : List Char → List Char → List String
  | acc, [] => [String.mk acc.reverse]
  | acc, c :: rest =>
    if c == '\n' then String.mk acc.reverse :: splitNewlineAux [] rest
    else splitNewlineAux (c :: acc) rest

def splitLines (s : String) : List String :=
  splitNewlineAux [] s.data

/-- app.js lines 285: split into non-empty trimmed lines. -/
def parsedLines (trimmedText : String) : List String :=
  ((splitLines trimmedText).map jsTrim).filter (fun l => !(l.data.isEmpty))

/-- app.js lines 297-302: classification of the token after `ALERT:`
(already trimmed and lower-cased): substring check for yes/true then no/false. -/
def classifyAlertToken (tok : String) : Option AlertSignal :=
  if strIncludes tok "yes" || strIncludes tok "true" then some AlertSignal.yes
  else if strIncludes tok "no" || strIncludes tok "false" then some AlertSignal.no
  else none

/-- app.js lines 289-305: one step of the labeled-line loop.  A `SCENE:` line
overwrites the description; an `ALERT:` line overwrites the signal only when
its token classifies; every other line leaves the accumulator unchanged. -/
def labeledStep (acc : String × Option AlertSignal) (l : String) : String × Option AlertSignal :=
  if strStartsWith l "SCENE:" then (jsTrim (strDrop l 6), acc.snd)
  else if strStartsWith l "ALERT:" then
    match classifyAlertToken (strToLower (jsTrim (strDrop l 6))) with
    | some r => (acc.fst, some r)
    | none => acc
  else acc

/-- app.js lines 281-305: the labeled-line pass over all lines. -/
def labeledParse (lines : List String) : String × Option AlertSignal :=
  lines.foldl labeledStep ("", none)

/-- app.js line 311: strip one leading field label, case-insensitively
(the regex `^(SCENE:|DESCRIPTION:|CONDITION:|ALERT:)/i`). -/
def stripLeadingLabel (l : String) : String :=
  if strStartsWith (strToLower l) "scene:" then strDrop l 6
  else if strStartsWith (strToLower l) "description:" then strDrop l 12
  else if strStartsWith (strToLower l) "condition:" then strDrop l 10
  else if strStartsWith (strToLower l) "alert:" then strDrop l 6
  else l

/-- Does one of the given (lower-case, word-character) needles start at this
position, with a word boundary after it? -/
def matchesWordAt (w cs : List Char) : Bool :=
  w.isPrefixOf cs &&
    (match cs.drop w.length with
     | [] => true
     | c :: _ => !(isWordChar c))

/-- One of yes/no/true/false starts at this position (lower-cased text). -/
def yntfAt (cs : List Char) : Bool :=
  matchesWordAt "yes".data cs || matchesWordAt "no".data cs ||
    matchesWordAt "true".data cs || matchesWordAt "false".data cs

/-- Scan with a flag recording whether the previous character was a word
character (for the leading `\b`). -/
def yntfScan : Bool → List Char → Bool
  | _, [] => false
  | prev, c :: rest => (!prev && yntfAt (c :: rest)) || yntfScan (isWordChar c) rest

/-- app.js line 312: the test `/\b(yes|no|true|false)\b/i`. -/
def hasStandaloneYNTF (s : String) : Bool :=
  yntfScan false (strToLower s).data

/-- app.js line 311: `line.replace(label-regex, '').trim()`. -/
def cleanedLine (l : String) : String :=
  jsTrim (stripLeadingLabel l)

/-- app.js line 312: the condition for a fallback descriptive line. -/
def isDescriptiveLine (l : String) : Bool :=
  15 < (cleanedLine l).length && !(hasStandaloneYNTF (cleanedLine l))

/-- app.js lines 308-317: first fallback stage for the description. -/
def stage1Description (lines : List String) : String :=
  match lines.find? isDescriptiveLine with
  | some l => cleanedLine l
  | none => ""

/-- The keyword alternatives of the regex on app.js line 321, in source order. -/
def stripKeywords : List (List Char) :=
  ["alert".data, "yes".data, "no".data, "true".data, "false".data, "condition".data]

/-- Case-insensitive prefix check for a single keyword. -/
def ciPrefixOf (w cs : List Char) : Bool :=
  w.isPrefixOf ((cs.take w.length).map Char.toLower)

/-- First keyword of `/(alert|yes|no|true|false|condition)/i` matching at this
position (JS alternation takes the first alternative), returning its length. -/
def matchKeywordAt (cs : List Char) : Option Nat :=
  (stripKeywords.find? (fun w => ciPrefixOf w cs)).map List.length

/-- After the keyword, the regex consumes `[\s:]*` then `\w*` greedily. -/
def stripAfterKeyword (cs : List Char) : List Char :=
  (cs.dropWhile (fun c => isJsSpace c || c == ':')).dropWhile isWordChar

/-- app.js line 321: global replace of
`/\b(alert|yes|no|true|false|condition)[\s:]*\w*/gi` by the empty string.
Fuel-driven left-to-right scan; `prev` tracks the word-character status of the
previously emitted or consumed character (for the leading `\b`). -/
def stripKeywordsScan : Nat → Bool → List Char → List Char
  | 0, _, cs => cs
  | _ + 1, _, [] => []
  | fuel + 1, prev, c :: rest =>
    match (if prev then none else matchKeywordAt (c :: rest)) with
    | some klen =>
      let rem := stripAfterKeyword ((c :: rest).drop klen)
      let consumed := (c :: rest).take ((c :: rest).length - rem.length)
      stripKeywordsScan fuel (isWordChar (consumed.getLastD c)) rem
    | none => c :: stripKeywordsScan fuel (isWordChar c) rest

/-- The text with all alert/condition keyword groups removed (app.js line 321). -/
def removeAlertKeywords (t : String) : String :=
  String.mk (stripKeywordsScan (t.data.length + 1) false t.data)

/-- app.js lines 320-325: second fallback stage for the description. -/
def stage2Description (trimmedText : String) : String :=
  let textWithoutAlerts := jsTrim (removeAlertKeywords trimmedText)
  if 10 < textWithoutAlerts.length then
    strTake textWithoutAlerts 100 ++ (if 100 < textWithoutAlerts.length then "..." else "")
  else ""

/-- app.js lines 329-336: fallback alert detection by plain substring
containment over the lower-cased full text, positives first. -/
def fallbackAlert (lowerText : String) : Option AlertSignal :=
  if strIncludes lowerText "yes" || strIncludes lowerText "true" ||
      strIncludes lowerText "detected" || strIncludes lowerText "present" then
    some AlertSignal.yes
  else if strIncludes lowerText "no" || strIncludes lowerText "false" ||
      strIncludes lowerText "not detected" || strIncludes lowerText "absent" then
    some AlertSignal.no
  else none

structure ParsedResult where
  description : String
  alertResult : Option AlertSignal
deriving DecidableEq, Repr

/-- The description after labeled parsing and both fallback stages
(app.js lines 281-326). -/
def parsedDescription (t : String) : String :=
  if (labeledParse (parsedLines t)).fst = "" then
    (if stage1Description (parsedLines t) = "" then stage2Description t
     else stage1Description (parsedLines t))
  else (labeledParse (parsedLines t)).fst

/-- The alert signal after labeled parsing and the fallback scan
(app.js lines 289-337). -/
def parsedAlert (t : String) : Option AlertSignal :=
  match (labeledParse (parsedLines t)).snd with
  | some r => some r
  | none => fallbackAlert (strToLower t)

/-- The ResponseParser of the spec: app.js lines 277-341 applied to the trimmed
response text. -/
def parseResponse (t : String) : ParsedResult :=
  { description := parsedDescription t, alertResult := parsedAlert t }

/-! ## AlertLog (app.js `addAlert`, lines 422-459)

Each rendered alert is an outer `<div>` that contains one nested
`<div class="flex-1">` holding the message and timestamp.  The trimming code
counts `alertsContainer.querySelectorAll('div')` — i.e. **all** div
descendants, two per intact alert — and removes the last such div in document
order when the count exceeds `MAX_ALERTS`.  We model each alert element by its
kind, message, and whether its inner div is still present. -/

inductive AlertKind where
  | info
  | warning
  | error
deriving DecidableEq, Repr

structure AlertEl where
  kind : AlertKind
  message : String
  hasInner : Bool
deriving DecidableEq, Repr

/-- Number of div descendants of the alerts container
(`querySelectorAll('div').length`).  The list is newest-first. -/
def divCount (l : List AlertEl) : Nat :=
  l.foldl (fun n a => n + (if a.hasInner then 2 else 1)) 0

/-- `alerts[alerts.length - 1].remove()`: the last div in document order is the
oldest alert's inner div if present, otherwise the oldest alert's outer div. -/
def removeLastDiv : List AlertEl → List AlertEl
  | [] => []
  | [a] => if a.hasInner then [{ a with hasInner := false }] else []
  | a :: rest => a :: removeLastDiv rest

/-- app.js lines 422-459: prepend the new alert element, then remove one div
if the total div count exceeds `maxAlerts`. -/
def addAlert (maxAlerts : Nat) (k : AlertKind) (msg : String) (l : List AlertEl) : List AlertEl :=
  let l2 := { kind := k, message := msg, hasInner := true } :: l
  if maxAlerts < divCount l2 then removeLastDiv l2 else l2

/-- Repeated insertion of WARNING events into an initially empty log with
`MAX_ALERTS = 10` (the configuration's value), as in the spec's example. -/
def iterWarn : Nat → List AlertEl
  | 0 => []
  | n + 1 => addAlert 10 AlertKind.warning "w" (iterWarn n)

/-! ## JSON error-message extraction (app.js lines 232-241)

`JSON.parse` is a platform primitive; it is modelled here for the value forms
the error path inspects (objects, strings, arrays, literals; numbers are kept
as raw tokens, loosely validated). -/

inductive JsonVal where
  | str (s : String)
  | num (raw : String)
  | bool (b : Bool)
  | null
  | arr (xs : List JsonVal)
  | obj (fields : List (String × JsonVal))

def lbrace : Char := Char.ofNat 123

def rbrace : Char := Char.ofNat 125

def isJsonWs (c : Char) : Bool :=
  c == ' ' || c == '\t' || c == '\n' || c == '\r'

def hexVal (c : Char) : Option Nat :=
  if c.isDigit then some (c.toNat - 48)
  else if 97 ≤ c.toNat && c.toNat ≤ 102 then some (c.toNat - 87)
  else if 65 ≤ c.toNat && c.toNat ≤ 70 then some (c.toNat - 55)
  else none

/-- Parse the body of a JSON string after the opening quote; returns the
decoded characters and the remaining input. -/
def parseJsonStr : Nat → List Char → List Char → Option (List Char × List Char)
  | 0, _, _ => none
  | _ + 1, _, [] => none
  | fuel + 1, acc, c :: rest =>
    if c == '"' then some (acc.reverse, rest)
    else if c == '\\' then
      match rest with
      | [] => none
      | e :: rest2 =>
        if e == '"' then parseJsonStr fuel ('"' :: acc) rest2
        else if e == '\\' then parseJsonStr fuel ('\\' :: acc) rest2
        else if e == '/' then parseJsonStr fuel ('/' :: acc) rest2
        else if e == 'n' then parseJsonStr fuel ('\n' :: acc) rest2
        else if e == 't' then parseJsonStr fuel ('\t' :: acc) rest2
        else if e == 'r' then parseJsonStr fuel ('\r' :: acc) rest2
        else if e == 'b' then parseJsonStr fuel (Char.ofNat 8 :: acc) rest2
        else if e == 'f' then parseJsonStr fuel (Char.ofNat 12 :: acc) rest2
        else if e == 'u' then
          match rest2 with
          | h1 :: h2 :: h3 :: h4 :: rest3 =>
            match hexVal h1, hexVal h2, hexVal h3, hexVal h4 with
            | some a, some b, some c2, some d =>
              parseJsonStr fuel (Char.ofNat (((a * 16 + b) * 16 + c2) * 16 + d) :: acc) rest3
            | _, _, _, _ => none
          | _ => none
        else none
    else parseJsonStr fuel (c :: acc) rest

def isNumChar (c : Char) : Bool :=
  c.isDigit || c == '-' || c == '+' || c == '.' || c == 'e' || c == 'E'

/-- Consume a numeric token (sign, at least one digit, then the remaining
number characters greedily). -/
def parseJsonNum (cs : List Char) : Option (String × List Char) :=
  let body := if cs.headD ' ' == '-' then cs.drop 1 else cs
  match body with
  | c :: _ =>
    if c.isDigit then
      let tok := cs.takeWhile isNumChar
      some (String.mk tok, cs.drop tok.length)
    else none
  | [] => none

mutual

def parseJsonVal : Nat → List Char → Option (JsonVal × List Char)
  | 0, _ => none
  | fuel + 1, cs =>
    match cs.dropWhile isJsonWs with
    | [] => none
    | c :: rest =>
      if c == '"' then
        match parseJsonStr fuel [] rest with
        | some (d, r) => some (JsonVal.str (String.mk d), r)
        | none => none
      else if c == lbrace then
        match (rest.dropWhile isJsonWs).headD ' ' == rbrace, rest.dropWhile isJsonWs with
        | true, _ :: r2 => some (JsonVal.obj [], r2)
        | _, _ => parseJsonObj fuel (c :: rest).tail []
      else if c == '[' then
        match (rest.dropWhile isJsonWs).headD ' ' == ']', rest.dropWhile isJsonWs with
        | true, _ :: r2 => some (JsonVal.arr [], r2)
        | _, _ => parseJsonArr fuel (c :: rest).tail []
      else if "true".data.isPrefixOf (c :: rest) then some (JsonVal.bool true, (c :: rest).drop 4)
      else if "false".data.isPrefixOf (c :: rest) then some (JsonVal.bool false, (c :: rest).drop 5)
      else if "null".data.isPrefixOf (c :: rest) then some (JsonVal.null, (c :: rest).drop 4)
      else
        match parseJsonNum (c :: rest) with
        | some (tok, r) => some (JsonVal.num tok, r)
        | none => none

/-- Members of an object, entered after `{` (or after a `,`): expects
`"key" : value` then `,` or the closing brace. -/
def parseJsonObj : Nat → List Char → List (String × JsonVal) →
    Option (JsonVal × List Char)
  | 0, _, _ => none
  | fuel + 1, cs, acc =>
    match cs.dropWhile isJsonWs with
    | c :: rest =>
      if c == '"' then
        match parseJsonStr fuel [] rest with
        | some (k, r1) =>
          match r1.dropWhile isJsonWs with
          | c2 :: r2 =>
            if c2 == ':' then
              match parseJsonVal fuel r2 with
              | some (v, r3) =>
                match r3.dropWhile isJsonWs with
                | c3 :: r4 =>
                  if c3 == ',' then parseJsonObj fuel r4 ((String.mk k, v) :: acc)
                  else if c3 == rbrace then
                    some (JsonVal.obj ((String.mk k, v) :: acc).reverse, r4)
                  else none
                | [] => none
              | none => none
            else none
          | [] => none
        | none => none
      else none
    | [] => none

/-- Elements of an array, entered after `[` (or after a `,`). -/
def parseJsonArr : Nat → List Char → List JsonVal → Option (JsonVal × List Char)
  | 0, _, _ => none
  | fuel + 1, cs, acc =>
    match parseJsonVal fuel cs with
    | some (v, r1) =>
      match r1.dropWhile isJsonWs with
      | c :: r2 =>
        if c == ',' then parseJsonArr fuel r2 (v :: acc)
        else if c == ']' then some (JsonVal.arr (v :: acc).reverse, r2)
        else none
      | [] => none
    | none => none

end

/-- The model of `JSON.parse`: a full-input parse of the given text. -/
def parseJson (raw : String) : Option JsonVal :=
  match parseJsonVal (raw.data.length * 2 + 16) raw.data with
  | some (v, rest) => if (rest.dropWhile isJsonWs).isEmpty then some v else none
  | none => none

/-- Field lookup in a parsed object (`JSON.parse` keeps the last duplicate). -/
def jsonField (fields : List (String × JsonVal)) (k : String) : Option JsonVal :=
  (fields.reverse.find? (fun p => p.fst == k)).map (fun p => p.snd)

/-- app.js lines 234-240: `errorJson?.error?.message || errorMessage` with the
raw body as fallback (non-string message values are out of the model's scope;
the endpoint's error schema carries string messages). -/
def extractErrorMessage (raw : String) : String :=
  match parseJson raw with
  | some (JsonVal.obj fs) =>
    match jsonField fs "error" with
    | some (JsonVal.obj fs2) =>
      match jsonField fs2 "message" with
      | some (JsonVal.str m) => if m = "" then raw else m
      | _ => raw
    | _ => raw
  | _ => raw

/-! ## AnalysisLoop (app.js lines 32-106, 154-262, 382-403, 461-470)

The loop's mutable page state is made explicit.  `trace` is an append-only
instrumentation record of every `addAlert` call (the rendering event), kept
separately from the retained DOM list `alerts`; `sentConditions` records the
condition string embedded in each dispatched request payload, and
`tickBodyRuns` counts executions of the body of `analyzeFrame` past its
state-flag guard.  The network is the external collaborator: each tick takes
its outcome as a parameter. -/

structure AppState where
  isAnalyzing : Bool
  pendingTick : Bool
  alerts : List AlertEl
  trace : List (AlertKind × String)
  sceneText : String
  conditionValue : String
  conditionDisabled : Bool
  tokenValue : String
  tokenDisabled : Bool
  dynamicChecked : Bool
  streamAvailable : Bool
  intervalValue : String
  maxAlerts : Nat
  sentConditions : List String
  tickBodyRuns : Nat
deriving DecidableEq, Repr

/-- `addAlert` as invoked by the app: updates the DOM list (with the trimming
of app.js lines 454-458) and the instrumentation trace. -/
def addAlertS (k : AlertKind) (msg : String) (s : AppState) : AppState :=
  { s with alerts := addAlert s.maxAlerts k msg s.alerts, trace := (k, msg) :: s.trace }

/-- app.js lines 382-403 (`updateUIState`); only the input-element disabled
flags are part of the model.  The condition input is disabled/re-enabled only
when dynamic updates are unchecked. -/
def updateUIState (s : AppState) : AppState :=
  { s with
    conditionDisabled := if !s.dynamicChecked then s.isAnalyzing else s.conditionDisabled,
    tokenDisabled := s.isAnalyzing }

/-- app.js lines 92-99 (`stopAnalysis`): clear the running flag, cancel the
pending timeout, refresh the UI, log an info alert, reset the scene text. -/
def stopAnalysis (s : AppState) : AppState :=
  let s1 := { s with isAnalyzing := false, pendingTick := false }
  let s2 := updateUIState s1
  let s3 := addAlertS AlertKind.info "Analysis stopped." s2
  { s3 with sceneText := "Awaiting analysis..." }

/-- app.js line 363: `alertCondition.substring(0, 40)` with ellipsis. -/
def monitorSnippet (cond : String) : String :=
  strTake cond 40 ++ (if 40 < cond.length then "..." else "")

/-- app.js lines 339-368: push the parsed result into the UI.  `monitorPing`
models the `Math.random() < 0.03` draw of line 362. -/
def renderParsed (r : ParsedResult) (cond : String) (monitorPing : Bool) (s : AppState) : AppState :=
  let finalDescription := if r.description = "" then "Scene being analyzed..." else r.description
  let s1 := { s with sceneText := finalDescription }
  match r.alertResult with
  | some AlertSignal.yes => addAlertS AlertKind.warning ("🚨 DETECTED: " ++ cond) s1
  | some AlertSignal.no =>
    if monitorPing then addAlertS AlertKind.info ("✓ Monitoring: " ++ monitorSnippet cond) s1
    else s1
  | none => addAlertS AlertKind.error "Could not parse model response - check console for details" s1

/-- app.js lines 270-275: the empty/invalid-response branch. -/
def emptyResponseRender (s : AppState) : AppState :=
  { addAlertS AlertKind.error "Model returned an empty or invalid response." s with
    sceneText := "Model returned an empty response." }

/-- app.js lines 267-375 (`processApiResponse`).  `predictionText` is the text
extracted from the response JSON via the two supported paths (`none` when
absent or not a string). -/
def processApiResponse (predictionText : Option String) (cond : String) (monitorPing : Bool)
    (s : AppState) : AppState :=
  match predictionText with
  | none => emptyResponseRender s
  | some txt =>
    if jsTrim txt = "" then emptyResponseRender s
    else renderParsed (parseResponse (jsTrim txt)) cond monitorPing s

/-- The observable outcome of one `fetch` to the inference endpoint. -/
inductive FetchOutcome where
  | ok (predictionText : Option String) (monitorPing : Bool)
  | httpError (status : Nat) (bodyText : String)
  | networkError (message : String)

/-- The tick body past its guard, before the request outcome arrives: the
instrumentation counter and the dispatched request's condition string
(app.js lines 157-230). -/
def tickedState (s : AppState) : AppState :=
  { s with tickBodyRuns := s.tickBodyRuns + 1,
           sentConditions := jsTrim s.conditionValue :: s.sentConditions }

/-- app.js lines 232-253: how one tick reacts to the request outcome — on
success process the response, on a non-2xx status or transport failure log an
ERROR alert (with the extracted server message where available) and stop. -/
def analyzeFrameOutcome (o : FetchOutcome) (cond : String) (s1 : AppState) : AppState :=
  match o with
  | FetchOutcome.ok p mp => processApiResponse p cond mp s1
  | FetchOutcome.httpError st body =>
    stopAnalysis (addAlertS AlertKind.error
      ("Failed to analyze frame: API Error (" ++ Nat.repr st ++ "): " ++
        extractErrorMessage body) s1)
  | FetchOutcome.networkError m =>
    stopAnalysis (addAlertS AlertKind.error ("Failed to analyze frame: " ++ m) s1)

/-- app.js lines 154-262 (`analyzeFrame`): abort silently unless running; read
the condition fresh from the input; dispatch the request and handle its
outcome; finally schedule the next tick iff still running. -/
def analyzeFrame (o : FetchOutcome) (s : AppState) : AppState :=
  if s.isAnalyzing = false then s
  else
    let s2 := analyzeFrameOutcome o (jsTrim s.conditionValue) (tickedState s)
    if s2.isAnalyzing = true then { s2 with pendingTick := true } else s2

/-- app.js lines 78-85: the state right after validation passes — running flag
set, UI refreshed, start logged — and before the immediate first tick. -/
def startedState (s : AppState) : AppState :=
  addAlertS AlertKind.info ("Analysis started with " ++ s.intervalValue ++ "ms interval.")
    (updateUIState { s with isAnalyzing := true })

/-- app.js lines 65-87 (`startAnalysis`): validate the trimmed inputs and the
stream, then flip to running, refresh the UI, log the start, and run the first
tick immediately. -/
def startAnalysis (o : FetchOutcome) (s : AppState) : AppState :=
  if jsTrim s.conditionValue = "" ∨ jsTrim s.tokenValue = "" then
    addAlertS AlertKind.error "Please fill in the \"Alert for\" and \"Access Token\" fields." s
  else if s.streamAvailable = false then
    addAlertS AlertKind.error "Webcam is not available. Cannot start analysis." s
  else
    analyzeFrame o (startedState s)

/-- The externally visible events of the page.  Edits apply only to enabled
inputs; the start/stop buttons are disabled exactly when `isAnalyzing` says so
(`updateUIState`); a scheduled timeout can fire only while one is pending. -/
inductive Event where
  | editCondition (v : String)
  | editToken (v : String)
  | toggleDynamic
  | clickStart (o : FetchOutcome)
  | clickStop
  | fireTick (o : FetchOutcome)

/-- One UI/event-loop step (app.js lines 461-470 for the listeners). -/
def step (s : AppState) : Event → AppState
  | Event.editCondition v =>
    if s.conditionDisabled = true then s else { s with conditionValue := v }
  | Event.editToken v =>
    if s.tokenDisabled = true then s else { s with tokenValue := v }
  | Event.toggleDynamic =>
    let s1 := { s with dynamicChecked := !s.dynamicChecked }
    if s1.isAnalyzing = true then updateUIState s1 else s1
  | Event.clickStart o => if s.isAnalyzing = true then s else startAnalysis o s
  | Event.clickStop => if s.isAnalyzing = true then stopAnalysis s else s
  | Event.fireTick o =>
    if s.pendingTick = true then analyzeFrame o { s with pendingTick := false } else s

/-- Run a sequence of events. -/
def run : AppState → List Event → AppState
  | s, [] => s
  | s, e :: es => run (step s e) es

/-- The loop stays RUNNING at every state along the event sequence. -/
def analyzingThroughout : AppState → List Event → Bool
  | s, [] => s.isAnalyzing
  | s, e :: es => s.isAnalyzing && analyzingThroughout (step s e) es

/-- A generic idle page state used to instantiate the theorems. -/
def baseState : AppState :=
  { isAnalyzing := false, pendingTick := false, alerts := [], trace := [],
    sceneText := "Awaiting analysis...", conditionValue := "person present",
    conditionDisabled := false, tokenValue := "token123", tokenDisabled := false,
    dynamicChecked := false, streamAvailable := true, intervalValue := "1000",
    maxAlerts := 10, sentConditions := [], tickBodyRuns := 0 }

/-- The same page mid-run (dynamic updates unchecked, so the condition input
is disabled). -/
def runState : AppState :=
  { baseState with isAnalyzing := true, conditionDisabled := true, tokenDisabled := true }

/-! ## Definitions restating spec wording (for comparison with the code) -/

/-- The positive indicator words of the spec's fallback scan. -/
def positiveIndicators : List String := ["yes", "true", "detected", "present"]

/-- The negative indicator words of the spec's fallback scan. -/
def negativeIndicators : List String := ["no", "false", "not detected", "absent"]

/-- An indicator starting at this position of the lower-cased text (positives
checked first at equal positions; ties do not arise in the inputs used). -/
def indicatorAt (cs : List Char) : Option AlertSignal :=
  if positiveIndicators.any (fun w => w.data.isPrefixOf cs) then some AlertSignal.yes
  else if negativeIndicators.any (fun w => w.data.isPrefixOf cs) then some AlertSignal.no
  else none

def firstScanAux : List Char → Option AlertSignal
  | [] => none
  | c :: rest =>
    match indicatorAt (c :: rest) with
    | some r => some r
    | none => firstScanAux rest

/-- Modelled from the spec's words (claim C3, for refutation): the indicator
whose occurrence comes first in linear scan order over the lower-cased text
determines the signal. -/
def firstScanIndicator (lowerText : String) : Option AlertSignal :=
  firstScanAux lowerText.data

/-- Claim C3 as stated: whenever no labeled ALERT line resolved the signal and
both a positive and a negative indicator occur, the parser's signal is the one
whose occurrence comes first in scan order. -/
def C3ClaimStatement : Prop :=
  ∀ t : String,
    (labeledParse (parsedLines t)).snd = none →
    positiveIndicators.any (fun w => strIncludes (strToLower t) w) = true →
    negativeIndicators.any (fun w => strIncludes (strToLower t) w) = true →
    (parseResponse t).alertResult = firstScanIndicator (strToLower t)

/-- The description contributed by a labeled `SCENE:` line. -/
def sceneContent (l : String) : String := jsTrim (strDrop l 6)

/-- The signal contributed by a labeled `ALERT:` line, when its token
classifies. -/
def alertLineSignal (l : String) : Option AlertSignal :=
  if strStartsWith l "ALERT:" then classifyAlertToken (strToLower (jsTrim (strDrop l 6)))
  else none

/-- The input of claim C2. -/
def weatherText : String := "The weather is nice today and nothing else is said"

/-- The error body of claim C6. -/
def quotaBody : String := "\x7b\"error\":\x7b\"message\":\"quota exceeded\"\x7d\x7d"

/-! ## Theorems -/

/-- C1: the claimed AlertLog bound fails on the code.  `addAlert` counts every
div descendant (two per intact alert) and removes a single div per insertion,
so with `maxAlerts = 10` the 6th insertion already strips the oldest alert's
message body, 15 insertions do leave 10 alerts (the spec's example holds by
coincidence), but 16 insertions leave 11 retained alert elements and the log
keeps growing (16 at 26 insertions). -/
theorem C1_alertlog_overflow :
    (iterWarn 15).length = 10
    ∧ (iterWarn 16).length = 11
    ∧ (iterWarn 26).length = 16
    ∧ ((iterWarn 6).getLast?.map AlertEl.hasInner) = some false
    ∧ (iterWarn 6).length = 6 := by
  decide

/-- C2 counterexample: on the weather text the parser does not return UNKNOWN;
the fallback substring scan finds "no" inside "nothing" and yields NO. -/
theorem C2_counterexample :
    (parseResponse weatherText).alertResult = some AlertSignal.no
    ∧ (parseResponse weatherText).alertResult ≠ none := by
  decide

/-- C2 amended: on the weather text the parser returns alert signal NO (the
fallback scan matches the substring "no" inside "nothing"), and the
description comes from the fallback description path — no labeled SCENE line
produced it — and equals the full input sentence. -/
theorem C2_fallback_eval :
    parseResponse weatherText =
      { description := weatherText, alertResult := some AlertSignal.no }
    ∧ (labeledParse (parsedLines weatherText)).fst = ""
    ∧ stage1Description (parsedLines weatherText) = weatherText := by
  decide

/-- C3 counterexample: claim C3 as stated is false.  On "no, yes" the first
indicator in scan order is the negative "no" (position 0), but the code
answers YES because the positive check runs first, independent of position. -/
theorem C3_counterexample : ¬ C3ClaimStatement := by
  intro h
  exact absurd (h "no, yes" (by decide) (by decide) (by decide)) (by decide)

/-- C4: labeled-line parsing is order-independent — both orderings of the
SCENE and ALERT lines parse to the labeled description and signal. -/
theorem C4_labeled_order_independent :
    parseResponse "SCENE: A person at a desk\nCONDITION: person present\nALERT: YES" =
      { description := "A person at a desk", alertResult := some AlertSignal.yes }
    ∧ parseResponse "ALERT: NO\nSCENE: Empty room" =
      { description := "Empty room", alertResult := some AlertSignal.no } := by
  decide

/-- Two candidate prefixes that disagree on their first character cannot both
match. -/
theorem isPrefixOf_head_excl {a b : Char} {as bs l : List Char} (hne : a ≠ b)
    (h : (a :: as).isPrefixOf l = true) : (b :: bs).isPrefixOf l = false := by
  cases l with
  | nil => simp [List.isPrefixOf] at h
  | cons c cs =>
    simp only [List.isPrefixOf, Bool.and_eq_true, beq_iff_eq] at h
    have hba : (b == c) = false := by
      rcases h with ⟨rfl, -⟩
      exact beq_eq_false_iff_ne.mpr (fun hba => hne hba.symm)
    simp [List.isPrefixOf, hba]

/-- A line starting with `SCENE:` does not start with `ALERT:`. -/
theorem scene_not_alert {l : String} (h : strStartsWith l "SCENE:" = true) :
    strStartsWith l "ALERT:" = false := by
  have h1 : "SCENE:".data = 'S' :: "CENE:".data := rfl
  have h2 : "ALERT:".data = 'A' :: "LERT:".data := rfl
  unfold strStartsWith at h ⊢
  rw [h1] at h
  rw [h2]
  exact isPrefixOf_head_excl (by decide) h

theorem getLast?_cons_getD {α : Type} (a : α) (xs : List α) :
    (a :: xs).getLast? = some (xs.getLast?.getD a) := by
  induction xs generalizing a with
  | nil => rfl
  | cons b t ih => simp [List.getLast?_cons_cons, ih]

/-- The labeled-line fold, for an arbitrary accumulator: the description is
the last `SCENE:` line's content (defaulting to the accumulator) and the
signal is the last classifying `ALERT:` line's signal (likewise). -/
theorem labeledParse_foldl (ls : List String) (d : String) (a : Option AlertSignal) :
    List.foldl labeledStep (d, a) ls =
      ((((ls.filter (fun l => strStartsWith l "SCENE:")).getLast?).map sceneContent).getD d,
        (((ls.filterMap alertLineSignal).getLast?).map some).getD a) := by
  induction ls generalizing d a with
  | nil => rfl
  | cons l ls ih =>
    rw [List.foldl_cons, ih]
    by_cases hs : strStartsWith l "SCENE:" = true
    · have hna := scene_not_alert hs
      simp only [labeledStep, hs, if_true, List.filter_cons, List.filterMap_cons,
        alertLineSignal, hna, Bool.false_eq_true, if_false]
      rw [getLast?_cons_getD]
      cases hgl : (ls.filter (fun l => strStartsWith l "SCENE:")).getLast? with
      | none => simp [sceneContent]
      | some x => simp
    · have hs' : strStartsWith l "SCENE:" = false := by
        cases hv : strStartsWith l "SCENE:" with
        | false => rfl
        | true => exact absurd hv hs
      by_cases ha : strStartsWith l "ALERT:" = true
      · cases hc : classifyAlertToken (strToLower (jsTrim (strDrop l 6))) with
        | none =>
          simp only [labeledStep, hs', Bool.false_eq_true, if_false, ha, if_true, hc,
            List.filter_cons, List.filterMap_cons, alertLineSignal]
        | some r =>
          simp only [labeledStep, hs', Bool.false_eq_true, if_false, ha, if_true, hc,
            List.filter_cons, List.filterMap_cons, alertLineSignal]
          rw [getLast?_cons_getD]
          cases hgl : (ls.filterMap alertLineSignal).getLast? with
          | none => simp
          | some x => simp
      · have ha' : strStartsWith l "ALERT:" = false := by
          cases hv : strStartsWith l "ALERT:" with
          | false => rfl
          | true => exact absurd hv ha
        simp only [labeledStep, hs', Bool.false_eq_true, if_false, ha',
          List.filter_cons, List.filterMap_cons, alertLineSignal]

/-- C10: when several lines carry the same label, the last occurrence wins —
the parsed description is the content of the last `SCENE:` line, and the
signal is that of the last `ALERT:` line whose token classifies (an `ALERT:`
line with an unrecognized token, filtered out by `alertLineSignal`, does not
reset an earlier signal). -/
theorem C10_last_occurrence_wins (lines : List String) :
    (labeledParse lines).fst =
      ((((lines.filter (fun l => strStartsWith l "SCENE:")).getLast?).map sceneContent).getD "")
    ∧ (labeledParse lines).snd = (lines.filterMap alertLineSignal).getLast? := by
  unfold labeledParse
  rw [labeledParse_foldl]
  refine ⟨rfl, ?_⟩
  cases (lines.filterMap alertLineSignal).getLast? with
  | none => rfl
  | some x => rfl

/-- When a positive indicator substring is present, the fallback scan answers
YES, whatever else the text contains. -/
theorem fallbackAlert_pos (t : String)
    (hp : positiveIndicators.any (fun w => strIncludes t w) = true) :
    fallbackAlert t = some AlertSignal.yes := by
  simp only [positiveIndicators, List.any_cons, List.any_nil, Bool.or_eq_true,
    Bool.or_false] at hp
  unfold fallbackAlert
  rcases hp with h | h | h | h <;> simp [h]

/-- C3 amended: when no labeled ALERT line resolves the signal and both a
positive and a negative indicator occur in the lower-cased text, the parser
answers YES — positive indicators take precedence unconditionally (the
positive substring check runs first), independent of the position of the
occurrences. -/
theorem C3_positive_precedence (t : String)
    (hlab : (labeledParse (parsedLines t)).snd = none)
    (hp : positiveIndicators.any (fun w => strIncludes (strToLower t) w) = true)
    (_hn : negativeIndicators.any (fun w => strIncludes (strToLower t) w) = true) :
    (parseResponse t).alertResult = some AlertSignal.yes := by
  show parsedAlert t = some AlertSignal.yes
  unfold parsedAlert
  rw [hlab]
  exact fallbackAlert_pos _ hp

/-- C3 witness: the amended statement at the counterexample input. -/
theorem C3_positive_precedence_witness :
    (parseResponse "maybe no, maybe yes").alertResult = some AlertSignal.yes :=
  C3_positive_precedence "maybe no, maybe yes" (by decide) (by decide) (by decide)

/-! ### Invariance lemmas for the loop state -/

/-- Fields `renderParsed` never writes. -/
theorem renderParsed_inv (r : ParsedResult) (c : String) (mp : Bool) (s : AppState) :
    (renderParsed r c mp s).isAnalyzing = s.isAnalyzing
    ∧ (renderParsed r c mp s).pendingTick = s.pendingTick
    ∧ (renderParsed r c mp s).conditionValue = s.conditionValue
    ∧ (renderParsed r c mp s).conditionDisabled = s.conditionDisabled
    ∧ (renderParsed r c mp s).dynamicChecked = s.dynamicChecked
    ∧ (renderParsed r c mp s).sentConditions = s.sentConditions
    ∧ (renderParsed r c mp s).tickBodyRuns = s.tickBodyRuns := by
  obtain ⟨d, ar⟩ := r
  cases ar with
  | none => exact ⟨rfl, rfl, rfl, rfl, rfl, rfl, rfl⟩
  | some sig => cases sig <;> cases mp <;> exact ⟨rfl, rfl, rfl, rfl, rfl, rfl, rfl⟩

/-- Reduction of `processApiResponse` at a present prediction text. -/
theorem processApiResponse_some (txt : String) (c : String) (mp : Bool) (s : AppState) :
    processApiResponse (some txt) c mp s =
      if jsTrim txt = "" then emptyResponseRender s
      else renderParsed (parseResponse (jsTrim txt)) c mp s := rfl

/-- Fields `processApiResponse` never writes. -/
theorem processApiResponse_inv (p : Option String) (c : String) (mp : Bool) (s : AppState) :
    (processApiResponse p c mp s).isAnalyzing = s.isAnalyzing
    ∧ (processApiResponse p c mp s).pendingTick = s.pendingTick
    ∧ (processApiResponse p c mp s).conditionValue = s.conditionValue
    ∧ (processApiResponse p c mp s).conditionDisabled = s.conditionDisabled
    ∧ (processApiResponse p c mp s).dynamicChecked = s.dynamicChecked
    ∧ (processApiResponse p c mp s).sentConditions = s.sentConditions
    ∧ (processApiResponse p c mp s).tickBodyRuns = s.tickBodyRuns := by
  cases p with
  | none => exact ⟨rfl, rfl, rfl, rfl, rfl, rfl, rfl⟩
  | some txt =>
    rw [processApiResponse_some]
    by_cases he : jsTrim txt = ""
    · rw [if_pos he]
      exact ⟨rfl, rfl, rfl, rfl, rfl, rfl, rfl⟩
    · rw [if_neg he]
      exact renderParsed_inv _ _ _ _

/-- A tick fired while the loop is idle does nothing at all. -/
theorem analyzeFrame_idle (o : FetchOutcome) (s : AppState) (h : s.isAnalyzing = false) :
    analyzeFrame o s = s := by
  unfold analyzeFrame
  rw [if_pos h]

/-- A successful request: the response is processed and the next tick is
scheduled. -/
theorem analyzeFrame_ok (p : Option String) (mp : Bool) (s : AppState)
    (h : s.isAnalyzing = true) :
    analyzeFrame (FetchOutcome.ok p mp) s =
      { processApiResponse p (jsTrim s.conditionValue) mp (tickedState s) with
        pendingTick := true } := by
  have hcond : ¬ s.isAnalyzing = false := by simp [h]
  have h2 : (analyzeFrameOutcome (FetchOutcome.ok p mp) (jsTrim s.conditionValue)
      (tickedState s)).isAnalyzing = true := by
    show (processApiResponse p (jsTrim s.conditionValue) mp (tickedState s)).isAnalyzing = true
    rw [(processApiResponse_inv p _ mp _).1]
    exact h
  simp only [analyzeFrame]
  rw [if_neg hcond, if_pos h2]
  rfl

/-- A non-2xx response: error alert (with the extracted message) then stop. -/
theorem analyzeFrame_http (st : Nat) (b : String) (s : AppState)
    (h : s.isAnalyzing = true) :
    analyzeFrame (FetchOutcome.httpError st b) s =
      stopAnalysis (addAlertS AlertKind.error
        ("Failed to analyze frame: API Error (" ++ Nat.repr st ++ "): " ++ extractErrorMessage b)
        (tickedState s)) := by
  have hcond : ¬ s.isAnalyzing = false := by simp [h]
  simp only [analyzeFrame]
  rw [if_neg hcond]
  rfl

/-- A transport failure: error alert then stop. -/
theorem analyzeFrame_net (m : String) (s : AppState) (h : s.isAnalyzing = true) :
    analyzeFrame (FetchOutcome.networkError m) s =
      stopAnalysis (addAlertS AlertKind.error ("Failed to analyze frame: " ++ m)
        (tickedState s)) := by
  have hcond : ¬ s.isAnalyzing = false := by simp [h]
  simp only [analyzeFrame]
  rw [if_neg hcond]
  rfl

/-! ### Substring containment through append -/

theorem isPrefixOf_self (l : List Char) : l.isPrefixOf l = true := by
  induction l with
  | nil => rfl
  | cons c cs ih => simp [List.isPrefixOf, ih]

theorem strIncludesAux_append (n pre : List Char) : strIncludesAux n (pre ++ n) = true := by
  induction pre with
  | nil =>
    cases n with
    | nil => rfl
    | cons c cs => simp [strIncludesAux, isPrefixOf_self]
  | cons c pre ih => simp [strIncludesAux, ih]

theorem strIncludes_append_right (x n : String) : strIncludes (x ++ n) n = true := by
  unfold strIncludes
  rw [String.data_append]
  exact strIncludesAux_append n.data x.data

/-- C5 counterexample: on a whitespace-only response the scene-description
display IS updated — it is overwritten with a fixed notice, so the claim's
"display is not updated" clause fails. -/
theorem C5_counterexample :
    (analyzeFrame (FetchOutcome.ok (some "   ") false) runState).sceneText =
      "Model returned an empty response."
    ∧ (analyzeFrame (FetchOutcome.ok (some "   ") false) runState).sceneText ≠
        runState.sceneText := by
  decide

/-- C5 amended: a whitespace-only model response renders an ERROR alert, sets
the scene-description display to the fixed notice "Model returned an empty
response." (rather than leaving it unchanged), and does not stop the loop —
the state stays RUNNING and the next tick is still scheduled. -/
theorem C5_empty_response (s : AppState) (txt : String) (mp : Bool)
    (h : s.isAnalyzing = true) (he : jsTrim txt = "") :
    (analyzeFrame (FetchOutcome.ok (some txt) mp) s).trace =
        (AlertKind.error, "Model returned an empty or invalid response.") :: s.trace
    ∧ (analyzeFrame (FetchOutcome.ok (some txt) mp) s).sceneText =
        "Model returned an empty response."
    ∧ (analyzeFrame (FetchOutcome.ok (some txt) mp) s).isAnalyzing = true
    ∧ (analyzeFrame (FetchOutcome.ok (some txt) mp) s).pendingTick = true := by
  rw [analyzeFrame_ok (some txt) mp s h]
  have hbranch : processApiResponse (some txt) (jsTrim s.conditionValue) mp (tickedState s) =
      emptyResponseRender (tickedState s) := by
    rw [processApiResponse_some, if_pos he]
  rw [hbranch]
  exact ⟨rfl, rfl, h, rfl⟩

/-- C5 witness: the amended statement at a concrete running state. -/
theorem C5_empty_response_witness :
    (analyzeFrame (FetchOutcome.ok (some " ") true) runState).isAnalyzing = true
    ∧ (analyzeFrame (FetchOutcome.ok (some " ") true) runState).pendingTick = true :=
  ⟨(C5_empty_response runState " " true rfl (by decide)).2.2.1,
   (C5_empty_response runState " " true rfl (by decide)).2.2.2⟩

/-- C6: a non-2xx response whose JSON body carries the message
"quota exceeded" renders an ERROR alert containing that extracted message and
transitions the loop RUNNING to IDLE with no retry scheduled; a body that is
not valid JSON falls back to the raw body text. -/
theorem C6_quota_error_stops_loop (s : AppState) (st : Nat) (h : s.isAnalyzing = true) :
    (analyzeFrame (FetchOutcome.httpError st quotaBody) s).isAnalyzing = false
    ∧ (analyzeFrame (FetchOutcome.httpError st quotaBody) s).pendingTick = false
    ∧ (analyzeFrame (FetchOutcome.httpError st quotaBody) s).trace =
        (AlertKind.info, "Analysis stopped.") ::
          (AlertKind.error,
            "Failed to analyze frame: API Error (" ++ Nat.repr st ++ "): " ++ "quota exceeded") ::
          s.trace
    ∧ strIncludes
        ("Failed to analyze frame: API Error (" ++ Nat.repr st ++ "): " ++ "quota exceeded")
        "quota exceeded" = true
    ∧ (∀ raw, parseJson raw = none → extractErrorMessage raw = raw) := by
  have hq : extractErrorMessage quotaBody = "quota exceeded" := by decide
  rw [analyzeFrame_http st quotaBody s h, hq]
  refine ⟨rfl, rfl, rfl, strIncludes_append_right _ _, ?_⟩
  intro raw hr
  unfold extractErrorMessage
  rw [hr]

/-- C6 witness: the statement at a concrete running state and status 429. -/
theorem C6_quota_witness :
    (analyzeFrame (FetchOutcome.httpError 429 quotaBody) runState).isAnalyzing = false
    ∧ (analyzeFrame (FetchOutcome.httpError 429 quotaBody) runState).pendingTick = false :=
  ⟨(C6_quota_error_stops_loop runState 429 rfl).1,
   (C6_quota_error_stops_loop runState 429 rfl).2.1⟩

/-- The tick counter and request trace of a tick that runs (any outcome). -/
theorem analyzeFrame_run_counts (o : FetchOutcome) (s : AppState) (h : s.isAnalyzing = true) :
    (analyzeFrame o s).tickBodyRuns = s.tickBodyRuns + 1
    ∧ (analyzeFrame o s).sentConditions = jsTrim s.conditionValue :: s.sentConditions := by
  cases o with
  | ok p mp =>
    rw [analyzeFrame_ok p mp s h]
    constructor
    · show (processApiResponse p (jsTrim s.conditionValue) mp (tickedState s)).tickBodyRuns = _
      rw [(processApiResponse_inv p _ mp _).2.2.2.2.2.2]
      rfl
    · show (processApiResponse p (jsTrim s.conditionValue) mp (tickedState s)).sentConditions = _
      rw [(processApiResponse_inv p _ mp _).2.2.2.2.2.1]
      rfl
  | httpError st b =>
    rw [analyzeFrame_http st b s h]
    exact ⟨rfl, rfl⟩
  | networkError m =>
    rw [analyzeFrame_net m s h]
    exact ⟨rfl, rfl⟩

/-- Reduction of `startAnalysis` on validation failure. -/
theorem startAnalysis_missing_fields (o : FetchOutcome) (s : AppState)
    (hor : jsTrim s.conditionValue = "" ∨ jsTrim s.tokenValue = "") :
    startAnalysis o s =
      addAlertS AlertKind.error
        "Please fill in the \"Alert for\" and \"Access Token\" fields." s := by
  unfold startAnalysis
  rw [if_pos hor]

/-- Reduction of `startAnalysis` when the stream is unavailable. -/
theorem startAnalysis_no_stream (o : FetchOutcome) (s : AppState)
    (hc : ¬ jsTrim s.conditionValue = "") (ht : ¬ jsTrim s.tokenValue = "")
    (hstr : s.streamAvailable = false) :
    startAnalysis o s =
      addAlertS AlertKind.error "Webcam is not available. Cannot start analysis." s := by
  unfold startAnalysis
  rw [if_neg (not_or.mpr ⟨hc, ht⟩), if_pos hstr]

/-- Reduction of `startAnalysis` on success: the state flips to running and
the first tick is executed immediately. -/
theorem startAnalysis_success (o : FetchOutcome) (s : AppState)
    (hc : ¬ jsTrim s.conditionValue = "") (ht : ¬ jsTrim s.tokenValue = "")
    (hstr : s.streamAvailable = true) :
    startAnalysis o s = analyzeFrame o (startedState s) := by
  unfold startAnalysis
  rw [if_neg (not_or.mpr ⟨hc, ht⟩), if_neg (by rw [hstr]; exact fun hf => Bool.noConfusion hf)]

/-- C7: `start` with an empty trimmed condition or credential renders a
validation error alert and changes nothing else (in particular the loop stays
IDLE and no tick body runs); with no frame source it renders a resource error
alert, likewise; with valid inputs and a stream it executes exactly one
immediate tick — the tick body runs once, dispatching one request with the
trimmed condition — and on a successful request outcome the loop is RUNNING
afterwards. -/
theorem C7_start_behavior (s : AppState) (o : FetchOutcome) :
    ((jsTrim s.conditionValue = "" ∨ jsTrim s.tokenValue = "") →
      startAnalysis o s =
        addAlertS AlertKind.error
          "Please fill in the \"Alert for\" and \"Access Token\" fields." s
      ∧ (startAnalysis o s).isAnalyzing = s.isAnalyzing
      ∧ (startAnalysis o s).tickBodyRuns = s.tickBodyRuns)
    ∧ (¬ jsTrim s.conditionValue = "" → ¬ jsTrim s.tokenValue = "" →
        s.streamAvailable = false →
      startAnalysis o s =
        addAlertS AlertKind.error "Webcam is not available. Cannot start analysis." s
      ∧ (startAnalysis o s).isAnalyzing = s.isAnalyzing
      ∧ (startAnalysis o s).tickBodyRuns = s.tickBodyRuns)
    ∧ (¬ jsTrim s.conditionValue = "" → ¬ jsTrim s.tokenValue = "" →
        s.streamAvailable = true →
      (startAnalysis o s).tickBodyRuns = s.tickBodyRuns + 1
      ∧ (startAnalysis o s).sentConditions = jsTrim s.conditionValue :: s.sentConditions
      ∧ ∀ p mp, o = FetchOutcome.ok p mp → (startAnalysis o s).isAnalyzing = true) := by
  refine ⟨fun hor => ?_, fun hc ht hstr => ?_, fun hc ht hstr => ?_⟩
  · rw [startAnalysis_missing_fields o s hor]
    exact ⟨rfl, rfl, rfl⟩
  · rw [startAnalysis_no_stream o s hc ht hstr]
    exact ⟨rfl, rfl, rfl⟩
  · rw [startAnalysis_success o s hc ht hstr]
    have hrun := analyzeFrame_run_counts o (startedState s) rfl
    refine ⟨hrun.1, hrun.2, ?_⟩
    intro p mp hok
    subst hok
    rw [analyzeFrame_ok p mp (startedState s) rfl]
    show (processApiResponse p (jsTrim (startedState s).conditionValue) mp
        (tickedState (startedState s))).isAnalyzing = true
    rw [(processApiResponse_inv p _ mp _).1]
    rfl

/-- C7 witness: the validation-failure and success branches at concrete
states. -/
theorem C7_start_witness :
    startAnalysis (FetchOutcome.ok (some "SCENE: desk") false)
        { baseState with conditionValue := "  " } =
      addAlertS AlertKind.error
        "Please fill in the \"Alert for\" and \"Access Token\" fields."
        { baseState with conditionValue := "  " }
    ∧ (startAnalysis (FetchOutcome.ok (some "SCENE: a tidy and quiet office room") false)
        baseState).tickBodyRuns = baseState.tickBodyRuns + 1 :=
  ⟨((C7_start_behavior { baseState with conditionValue := "  " }
      (FetchOutcome.ok (some "SCENE: desk") false)).1 (Or.inl (by decide))).1,
   ((C7_start_behavior baseState
      (FetchOutcome.ok (some "SCENE: a tidy and quiet office room") false)).2.2
      (by decide) (by decide) rfl).1⟩

/-- C8: `stop` leaves the loop IDLE with no pending scheduled tick; a tick
arriving after `stop` — whether invoked directly or through the timer event,
which the cleared timeout can no longer fire — does not execute its body (the
state-flag guard returns the state unchanged); and stopping while already
IDLE is a no-op with respect to the loop state. -/
theorem C8_stop_behavior (s : AppState) (o : FetchOutcome) :
    (stopAnalysis s).isAnalyzing = false
    ∧ (stopAnalysis s).pendingTick = false
    ∧ analyzeFrame o (stopAnalysis s) = stopAnalysis s
    ∧ step (stopAnalysis s) (Event.fireTick o) = stopAnalysis s
    ∧ (s.isAnalyzing = false → (stopAnalysis s).isAnalyzing = s.isAnalyzing) := by
  refine ⟨rfl, rfl, analyzeFrame_idle o _ rfl, ?_, fun hi => by rw [hi]; exact rfl⟩
  have hp : (stopAnalysis s).pendingTick = false := rfl
  simp [step, hp]

/-- C8 witness: stopping an idle page leaves the loop state unchanged, and a
tick fired against a stopped page is inert. -/
theorem C8_stop_witness :
    (stopAnalysis baseState).isAnalyzing = baseState.isAnalyzing
    ∧ analyzeFrame (FetchOutcome.networkError "offline") (stopAnalysis baseState) =
        stopAnalysis baseState :=
  ⟨(C8_stop_behavior baseState (FetchOutcome.networkError "offline")).2.2.2.2 rfl,
   (C8_stop_behavior baseState (FetchOutcome.networkError "offline")).2.2.1⟩

theorem stopAnalysis_isAnalyzing (s : AppState) : (stopAnalysis s).isAnalyzing = false := rfl

/-- A tick never writes the condition input's value or the dynamic toggle. -/
theorem analyzeFrame_cond_inv (o : FetchOutcome) (s : AppState) :
    (analyzeFrame o s).conditionValue = s.conditionValue
    ∧ (analyzeFrame o s).dynamicChecked = s.dynamicChecked := by
  cases hv : s.isAnalyzing with
  | false => rw [analyzeFrame_idle o s hv]; exact ⟨rfl, rfl⟩
  | true =>
    cases o with
    | ok p mp =>
      rw [analyzeFrame_ok p mp s hv]
      constructor
      · show (processApiResponse p (jsTrim s.conditionValue) mp
            (tickedState s)).conditionValue = _
        rw [(processApiResponse_inv p _ mp _).2.2.1]
        rfl
      · show (processApiResponse p (jsTrim s.conditionValue) mp
            (tickedState s)).dynamicChecked = _
        rw [(processApiResponse_inv p _ mp _).2.2.2.2.1]
        rfl
    | httpError st b => rw [analyzeFrame_http st b s hv]; exact ⟨rfl, rfl⟩
    | networkError m => rw [analyzeFrame_net m s hv]; exact ⟨rfl, rfl⟩

/-- A tick that leaves the loop RUNNING never touched the condition input's
disabled flag (only `stopAnalysis` rewrites it). -/
theorem analyzeFrame_disabled_inv (o : FetchOutcome) (s : AppState)
    (h2 : (analyzeFrame o s).isAnalyzing = true) :
    (analyzeFrame o s).conditionDisabled = s.conditionDisabled := by
  cases hv : s.isAnalyzing with
  | false => rw [analyzeFrame_idle o s hv]
  | true =>
    cases o with
    | ok p mp =>
      rw [analyzeFrame_ok p mp s hv]
      show (processApiResponse p (jsTrim s.conditionValue) mp
          (tickedState s)).conditionDisabled = _
      rw [(processApiResponse_inv p _ mp _).2.2.2.1]
      rfl
    | httpError st b =>
      rw [analyzeFrame_http st b s hv] at h2
      exact absurd h2 (by simp [stopAnalysis_isAnalyzing])
    | networkError m =>
      rw [analyzeFrame_net m s hv] at h2
      exact absurd h2 (by simp [stopAnalysis_isAnalyzing])

/-- C9 step preservation: while the condition input is disabled, no event that
keeps the loop RUNNING can re-enable it or change its value. -/
theorem stepPreservesFrozen (s : AppState) (e : Event)
    (hd : s.conditionDisabled = true) (ha2 : (step s e).isAnalyzing = true) :
    (step s e).conditionDisabled = true ∧ (step s e).conditionValue = s.conditionValue := by
  cases e with
  | editCondition v =>
    simp only [step]
    rw [if_pos hd]
    exact ⟨hd, rfl⟩
  | editToken v =>
    simp only [step]
    by_cases ht : s.tokenDisabled = true
    · rw [if_pos ht]; exact ⟨hd, rfl⟩
    · rw [if_neg ht]; exact ⟨hd, rfl⟩
  | toggleDynamic =>
    simp only [step]
    by_cases hi : s.isAnalyzing = true
    · rw [if_pos hi]
      refine ⟨?_, rfl⟩
      show (if !(!s.dynamicChecked) then s.isAnalyzing else s.conditionDisabled) = true
      cases s.dynamicChecked with
      | false => exact hd
      | true => exact hi
    · rw [if_neg hi]; exact ⟨hd, rfl⟩
  | clickStart o =>
    simp only [step] at ha2 ⊢
    by_cases hi : s.isAnalyzing = true
    · rw [if_pos hi]; exact ⟨hd, rfl⟩
    · rw [if_neg hi] at ha2 ⊢
      by_cases hor : jsTrim s.conditionValue = "" ∨ jsTrim s.tokenValue = ""
      · rw [startAnalysis_missing_fields o s hor]; exact ⟨hd, rfl⟩
      · obtain ⟨hc, ht⟩ := not_or.mp hor
        cases hstr : s.streamAvailable with
        | false => rw [startAnalysis_no_stream o s hc ht hstr]; exact ⟨hd, rfl⟩
        | true =>
          rw [startAnalysis_success o s hc ht hstr] at ha2 ⊢
          constructor
          · rw [analyzeFrame_disabled_inv o (startedState s) ha2]
            show (if !s.dynamicChecked then true else s.conditionDisabled) = true
            cases s.dynamicChecked with
            | false => rfl
            | true => exact hd
          · rw [(analyzeFrame_cond_inv o (startedState s)).1]
            rfl
  | clickStop =>
    simp only [step] at ha2 ⊢
    by_cases hi : s.isAnalyzing = true
    · rw [if_pos hi] at ha2
      exact absurd ha2 (by simp [stopAnalysis_isAnalyzing])
    · rw [if_neg hi]; exact ⟨hd, rfl⟩
  | fireTick o =>
    simp only [step] at ha2 ⊢
    by_cases hp : s.pendingTick = true
    · rw [if_pos hp] at ha2 ⊢
      constructor
      · rw [analyzeFrame_disabled_inv o { s with pendingTick := false } ha2]
        exact hd
      · rw [(analyzeFrame_cond_inv o { s with pendingTick := false }).1]
    · rw [if_neg hp]; exact ⟨hd, rfl⟩

/-- C9 step dispatch: while the loop is RUNNING, a step either dispatches no
request or dispatches exactly one carrying the current trimmed condition. -/
theorem stepSends (s : AppState) (e : Event) (ha : s.isAnalyzing = true) :
    (step s e).sentConditions = s.sentConditions
    ∨ (step s e).sentConditions = jsTrim s.conditionValue :: s.sentConditions := by
  cases e with
  | editCondition v =>
    simp only [step]
    by_cases hdis : s.conditionDisabled = true
    · rw [if_pos hdis]; exact Or.inl rfl
    · rw [if_neg hdis]; exact Or.inl rfl
  | editToken v =>
    simp only [step]
    by_cases ht : s.tokenDisabled = true
    · rw [if_pos ht]; exact Or.inl rfl
    · rw [if_neg ht]; exact Or.inl rfl
  | toggleDynamic =>
    simp only [step]
    by_cases hi : s.isAnalyzing = true
    · rw [if_pos hi]; exact Or.inl rfl
    · rw [if_neg hi]; exact Or.inl rfl
  | clickStart o =>
    simp only [step]
    rw [if_pos ha]
    exact Or.inl rfl
  | clickStop =>
    simp only [step]
    rw [if_pos ha]
    exact Or.inl rfl
  | fireTick o =>
    simp only [step]
    by_cases hp : s.pendingTick = true
    · rw [if_pos hp]
      exact Or.inr (analyzeFrame_run_counts o { s with pendingTick := false } ha).2
    · rw [if_neg hp]; exact Or.inl rfl

theorem analyzingThroughout_head (s : AppState) (es : List Event)
    (h : analyzingThroughout s es = true) : s.isAnalyzing = true := by
  cases es with
  | nil => exact h
  | cons e es =>
    simp only [analyzingThroughout, Bool.and_eq_true] at h
    exact h.1

/-- C9 run preservation: from a RUNNING state with a disabled condition input,
as long as the loop stays RUNNING the condition value never changes and every
request dispatched carries that frozen trimmed condition. -/
theorem run_frozen (es : List Event) : ∀ s : AppState, s.conditionDisabled = true →
    analyzingThroughout s es = true →
    (run s es).conditionValue = s.conditionValue
    ∧ (run s es).conditionDisabled = true
    ∧ ∀ c, c ∈ (run s es).sentConditions →
        c ∈ s.sentConditions ∨ c = jsTrim s.conditionValue := by
  induction es with
  | nil => exact fun s hd _ => ⟨rfl, hd, fun c hc => Or.inl hc⟩
  | cons e es ih =>
    intro s hd hthr
    have h0 : s.isAnalyzing = true := analyzingThroughout_head s (e :: es) hthr
    have h2 : analyzingThroughout (step s e) es = true := by
      simp only [analyzingThroughout, Bool.and_eq_true] at hthr
      exact hthr.2
    have ha2 : (step s e).isAnalyzing = true := analyzingThroughout_head _ es h2
    obtain ⟨hpd, hpv⟩ := stepPreservesFrozen s e hd ha2
    obtain ⟨ihv, ihd, ihm⟩ := ih (step s e) hpd h2
    have hrun : run s (e :: es) = run (step s e) es := rfl
    refine ⟨by rw [hrun, ihv, hpv], by rw [hrun]; exact ihd, ?_⟩
    intro c hc
    rw [hrun] at hc
    rcases ihm c hc with hin | heq
    · rcases stepSends s e h0 with hs | hs
      · rw [hs] at hin
        exact Or.inl hin
      · rw [hs] at hin
        rcases List.mem_cons.mp hin with hceq | hin2
        · exact Or.inr hceq
        · exact Or.inl hin2
    · rw [hpv] at heq
      exact Or.inr heq

/-- C9: the condition used on each tick is read fresh from the input at tick
time (first conjunct); an edit of the enabled condition input takes effect
immediately (second conjunct); and when dynamic updates are unchecked at loop
start, the input is disabled for as long as the run lasts, so the condition
stays at its loop-start value and every request of the run carries the
loop-start trimmed condition (third conjunct). -/
theorem C9_condition_freshness :
    (∀ (s : AppState) (o : FetchOutcome), s.isAnalyzing = true →
      (analyzeFrame o s).sentConditions = jsTrim s.conditionValue :: s.sentConditions)
    ∧ (∀ (s : AppState) (v : String), ¬ s.conditionDisabled = true →
      (step s (Event.editCondition v)).conditionValue = v)
    ∧ (∀ (s : AppState) (o : FetchOutcome) (es : List Event),
      s.isAnalyzing = false → s.dynamicChecked = false →
      analyzingThroughout (startAnalysis o s) es = true →
      (run (startAnalysis o s) es).conditionValue = s.conditionValue
      ∧ ∀ c, c ∈ (run (startAnalysis o s) es).sentConditions →
          c ∈ s.sentConditions ∨ c = jsTrim s.conditionValue) := by
  refine ⟨fun s o h => (analyzeFrame_run_counts o s h).2, fun s v hdis => ?_, ?_⟩
  · simp only [step]
    rw [if_neg hdis]
  · intro s o es hidle hdyn hthr
    have h0 : (startAnalysis o s).isAnalyzing = true :=
      analyzingThroughout_head _ es hthr
    by_cases hor : jsTrim s.conditionValue = "" ∨ jsTrim s.tokenValue = ""
    · rw [startAnalysis_missing_fields o s hor] at h0
      rw [show (addAlertS AlertKind.error
          "Please fill in the \"Alert for\" and \"Access Token\" fields." s).isAnalyzing
          = s.isAnalyzing from rfl, hidle] at h0
      exact Bool.noConfusion h0
    · obtain ⟨hc, ht⟩ := not_or.mp hor
      cases hstr : s.streamAvailable with
      | false =>
        rw [startAnalysis_no_stream o s hc ht hstr] at h0
        rw [show (addAlertS AlertKind.error
            "Webcam is not available. Cannot start analysis." s).isAnalyzing
            = s.isAnalyzing from rfl, hidle] at h0
        exact Bool.noConfusion h0
      | true =>
        rw [startAnalysis_success o s hc ht hstr] at h0 hthr ⊢
        have hd0 : (analyzeFrame o (startedState s)).conditionDisabled = true := by
          rw [analyzeFrame_disabled_inv o (startedState s) h0]
          show (if !s.dynamicChecked then true else s.conditionDisabled) = true
          rw [hdyn]
          rfl
        have hv0 : (analyzeFrame o (startedState s)).conditionValue = s.conditionValue := by
          rw [(analyzeFrame_cond_inv o (startedState s)).1]
          exact rfl
        have hs0 : (analyzeFrame o (startedState s)).sentConditions =
            jsTrim s.conditionValue :: s.sentConditions :=
          (analyzeFrame_run_counts o (startedState s) rfl).2
        obtain ⟨ihv, _, ihm⟩ := run_frozen es (analyzeFrame o (startedState s)) hd0 hthr
        refine ⟨by rw [ihv, hv0], ?_⟩
        intro c hc2
        rcases ihm c hc2 with hin | heq
        · rw [hs0] at hin
          rcases List.mem_cons.mp hin with hceq | hin2
          · exact Or.inr hceq
          · exact Or.inl hin2
        · rw [hv0] at heq
          exact Or.inr heq

/-- C9 witness: a tick at a concrete running state dispatches the current
trimmed condition value. -/
theorem C9_condition_witness :
    (analyzeFrame (FetchOutcome.ok (some "SCENE: all is quiet at the desk\nALERT: NO") false)
        runState).sentConditions = jsTrim runState.conditionValue :: runState.sentConditions :=
  C9_condition_freshness.1 runState
    (FetchOutcome.ok (some "SCENE: all is quiet at the desk\nALERT: NO") false) rfl

end Omnivision
